import Mathlib

/-!
Shallow embedding of the Battle Mechanics Resolution Engine: the batch
script embedded in `apps/web/vite.config.ts` (the second and third
documents of that file).  The script reads one JSON payload from stdin,
dispatches each request of `payload.requests` to one of three handlers
(`getStats`, `compareSpeed`, `calcOne`) and writes the ordered list of
per-request outcomes.

The external `@smogon/calc` library (the "Mechanics Oracle" of the spec)
is not part of this repository; it is modelled by the abstract `Oracle`
structure below, and — where a concrete instance is needed for witnesses —
by `specOracle`, whose stat arithmetic is modelled from the spec
(level/IV/EV/nature stat formula and boost-stage multipliers).

JavaScript conventions that matter to the embedding:
* an absent object/field is `Option.none`;
* `x || d` on a number treats `0` as absent (`jsOrNat`);
* `x || d` on an object only treats `undefined`/`null` as absent, so an
  empty object is NOT replaced by the default (`Option.getD` on the
  `Option` wrapper, never looking inside);
* `!data.name` is true for a missing name and for the empty string.
-/

/-- JavaScript `x || d` on an optional number: `0` counts as falsy. -/
def jsOrNat (x : Option Nat) (d : Nat) : Nat :=
  match x with
  | none => d
  | some n => if n = 0 then d else n

/-- JavaScript `!s` on an optional string: missing or empty is falsy. -/
def strFalsy (s : Option String) : Bool :=
  match s with
  | none => true
  | some v => v == ""

/-- The six battle stats, used to index EV/IV/boost spreads.
`df` models the `def` key of the source (a reserved word in Lean). -/
inductive StatKey where
  | hp | atk | df | spa | spd | spe
deriving DecidableEq

/-- A partially specified stat spread, as it appears in raw JSON input. -/
structure PartialStats where
  hp : Option Nat := none
  atk : Option Nat := none
  df : Option Nat := none
  spa : Option Nat := none
  spd : Option Nat := none
  spe : Option Nat := none
deriving DecidableEq

/-- A partially specified boost-stage spread from raw JSON input. -/
structure PartialBoosts where
  hp : Option Int := none
  atk : Option Int := none
  df : Option Int := none
  spa : Option Int := none
  spd : Option Int := none
  spe : Option Int := none
deriving DecidableEq

/-- A fully defaulted EV/IV spread (one value per stat). -/
structure Spread where
  hp : Nat
  atk : Nat
  df : Nat
  spa : Nat
  spd : Nat
  spe : Nat
deriving DecidableEq

/-- Read one entry of a `Spread`. -/
def Spread.stat (s : Spread) : StatKey → Nat
  | .hp => s.hp
  | .atk => s.atk
  | .df => s.df
  | .spa => s.spa
  | .spd => s.spd
  | .spe => s.spe

/-- A fully defaulted boost-stage spread. -/
structure BoostSpread where
  hp : Int
  atk : Int
  df : Int
  spa : Int
  spd : Int
  spe : Int
deriving DecidableEq

/-- Raw combatant data as found in the JSON payload (`data` in the source).
`actualStats` is the per-side flag read by `compareSpeed`. -/
structure RawPokemon where
  name : Option String := none
  level : Option Nat := none
  ability : Option String := none
  item : Option String := none
  nature : Option String := none
  evs : Option PartialStats := none
  ivs : Option PartialStats := none
  boosts : Option PartialBoosts := none
  status : Option String := none
  teraType : Option String := none
  moves : Option (List String) := none
  curHP : Option Nat := none
  originalCurHP : Option Nat := none
  actualStats : Bool := false
deriving DecidableEq

/-- The option bag passed to the Oracle `Pokemon` constructor
(the second argument of `new Pokemon(gen, name, options)`). -/
structure PokeOptions where
  level : Option Nat := none
  ability : Option String := none
  item : Option String := none
  nature : Option String := none
  evs : Option PartialStats := none
  ivs : Option PartialStats := none
  boosts : Option PartialBoosts := none
  status : Option String := none
  teraType : Option String := none
  moves : Option (List String) := none
  curHP : Option Nat := none
  originalCurHP : Option Nat := none
deriving DecidableEq

/-- A normalized combatant, after the Oracle constructor applied its
engine defaults. -/
structure Combatant where
  name : String
  level : Nat
  ability : Option String
  item : Option String
  nature : Option String
  evs : Spread
  ivs : Spread
  boosts : BoostSpread
  status : Option String
  teraType : Option String
  moves : Option (List String)
  curHP : Option Nat
  originalCurHP : Option Nat
deriving DecidableEq

/-- Modelled from the spec: engine default for absent effort values is 0
per stat. -/
def normEvs (e : Option PartialStats) : Spread :=
  let p := e.getD {}
  ⟨p.hp.getD 0, p.atk.getD 0, p.df.getD 0, p.spa.getD 0, p.spd.getD 0, p.spe.getD 0⟩

/-- Modelled from the spec: engine default for absent individual values is
31 per stat (the canonical maximum). -/
def normIvs (e : Option PartialStats) : Spread :=
  let p := e.getD {}
  ⟨p.hp.getD 31, p.atk.getD 31, p.df.getD 31, p.spa.getD 31, p.spd.getD 31, p.spe.getD 31⟩

/-- Modelled from the spec: absent boost stages default to 0. -/
def normBoosts (b : Option PartialBoosts) : BoostSpread :=
  let p := b.getD {}
  ⟨p.hp.getD 0, p.atk.getD 0, p.df.getD 0, p.spa.getD 0, p.spd.getD 0, p.spe.getD 0⟩

/-- Modelled from the spec: the Mechanics Oracle entity normalization
(the `Pokemon` constructor of the external engine).  Level defaults to
100 when unspecified; EVs/IVs/boosts are defaulted per stat; everything
else is kept as given. -/
def mkCombatant (name : String) (o : PokeOptions) : Combatant :=
  { name := name
    level := o.level.getD 100
    ability := o.ability
    item := o.item
    nature := o.nature
    evs := normEvs o.evs
    ivs := normIvs o.ivs
    boosts := normBoosts o.boosts
    status := o.status
    teraType := o.teraType
    moves := o.moves
    curHP := o.curHP
    originalCurHP := o.originalCurHP }

/-- The option bag `buildPokemon` passes through to the Oracle constructor
(every field of the raw data except `name` and `actualStats`). -/
def optionsOf (p : RawPokemon) : PokeOptions :=
  { level := p.level
    ability := p.ability
    item := p.item
    nature := p.nature
    evs := p.evs
    ivs := p.ivs
    boosts := p.boosts
    status := p.status
    teraType := p.teraType
    moves := p.moves
    curHP := p.curHP
    originalCurHP := p.originalCurHP }

/-- Source `buildPokemon(data)`: fails when `data` is absent or its `name` is
missing/empty, otherwise passes every other field through to the Oracle
constructor. -/
def buildPokemon (d : Option RawPokemon) : Except String Combatant :=
  match d with
  | none => .error "Pokemon data missing name"
  | some p =>
    if strFalsy p.name then .error "Pokemon data missing name"
    else .ok (mkCombatant (p.name.getD "") (optionsOf p))

/-- The maximum-speed EV spread literal of `buildMaxSpeedPokemon`. -/
def maxSpeedEvs : PartialStats :=
  { hp := some 0, atk := some 0, df := some 0, spa := some 0, spd := some 0, spe := some 252 }

/-- The all-31 IV spread literal of `buildMaxSpeedPokemon`. -/
def maxSpeedIvs : PartialStats :=
  { hp := some 31, atk := some 31, df := some 31, spa := some 31, spd := some 31, spe := some 31 }

/-- Source `buildMaxSpeedPokemon(data)`: maximum-speed-investment construction.
Nature is fixed to Jolly, EVs/IVs to the maximum-speed spreads, level to
`data.level || 100`; ability, item, boosts and status pass through. -/
def buildMaxSpeedPokemon (d : Option RawPokemon) : Except String Combatant :=
  match d with
  | none => .error "Pokemon data missing name"
  | some p =>
    if strFalsy p.name then .error "Pokemon data missing name"
    else .ok (mkCombatant (p.name.getD "")
      { level := some (jsOrNat p.level 100)
        ability := p.ability
        item := p.item
        nature := some "Jolly"
        evs := some maxSpeedEvs
        ivs := some maxSpeedIvs
        boosts := p.boosts
        status := p.status })

/-- Raw move data as found in the JSON payload. -/
structure RawMove where
  name : Option String := none
  useZ : Option Bool := none
  useMax : Option Bool := none
  isCrit : Option Bool := none
  isStellarFirstUse : Option Bool := none
  hits : Option Nat := none
  timesUsed : Option Nat := none
  timesUsedWithMetronome : Option Nat := none
deriving DecidableEq

/-- A normalized attack (the Oracle `Move` object). -/
structure Attack where
  name : String
  useZ : Option Bool
  useMax : Option Bool
  isCrit : Option Bool
  isStellarFirstUse : Option Bool
  hits : Option Nat
  timesUsed : Option Nat
  timesUsedWithMetronome : Option Nat
deriving DecidableEq

/-- Source `buildMove(data)`: fails when `data` is absent or its `name` is
missing/empty, otherwise passes the usage flags through. -/
def buildMove (d : Option RawMove) : Except String Attack :=
  match d with
  | none => .error "Move data missing name"
  | some m =>
    if strFalsy m.name then .error "Move data missing name"
    else .ok ⟨m.name.getD "", m.useZ, m.useMax, m.isCrit, m.isStellarFirstUse,
      m.hits, m.timesUsed, m.timesUsedWithMetronome⟩

/-- Per-side field conditions, modelled as a key/value object.  Condition
values are modelled opaquely as numbers. -/
abbrev SideConds := List (String × Nat)

/-- Key lookup in a side-condition object (first matching key wins). -/
def condLookup (k : String) : SideConds → Option Nat
  | [] => none
  | q :: rest => if q.1 = k then some q.2 else condLookup k rest

/-- JavaScript object spread `{...a, ...b}` on side-condition objects:
the union of both, with entries of `b` overriding entries of `a`. -/
def spreadMerge (a b : SideConds) : SideConds :=
  a.filter (fun q => (condLookup q.1 b).isNone) ++ b

/-- Raw field data as found in the JSON payload. -/
structure RawField where
  gameType : Option String := none
  weather : Option String := none
  terrain : Option String := none
  attackerSide : Option SideConds := none
  defenderSide : Option SideConds := none
deriving DecidableEq

/-- A normalized field context (the Oracle `Field` object). -/
structure FieldContext where
  gameType : String
  weather : Option String
  terrain : Option String
  attackerSide : SideConds
  defenderSide : SideConds
deriving DecidableEq

/-- The `base` template of `buildField`: Singles game type, empty
per-side condition objects. -/
def baseField : FieldContext :=
  { gameType := "Singles"
    weather := none
    terrain := none
    attackerSide := []
    defenderSide := [] }

/-- Source `buildField(data)`: total.  Absent data yields the base context;
otherwise the data is spread over the base, with each side object
spread-merged over the corresponding (empty) base side object. -/
def buildField (d : Option RawField) : FieldContext :=
  match d with
  | none => baseField
  | some f =>
    { gameType := f.gameType.getD baseField.gameType
      weather := f.weather
      terrain := f.terrain
      attackerSide := spreadMerge baseField.attackerSide (f.attackerSide.getD [])
      defenderSide := spreadMerge baseField.defenderSide (f.defenderSide.getD []) }

/-- Outcome of one Oracle damage computation (`calculate(...)` result):
the damage roll distribution, KO-chance text and descriptions. -/
structure OracleOutcome where
  damage : List Nat
  ko : String
  descText : String
  fullDescText : String
deriving DecidableEq

/-- The Mechanics Oracle interface (the external `@smogon/calc` engine,
out of scope per the spec).  `rawStat` is the level/IV/EV/nature stat
formula applied to one stat of one species; `applyBoost` is the
boost-stage multiplier; `calcAttack` resolves one attack and may fail
(unknown species, move, ...).  All engine arithmetic is kept abstract so
theorems quantified over an `Oracle` hold for any engine. -/
structure Oracle where
  rawStat : Nat → StatKey → String → Nat → Option String → Nat → Nat → Nat
  applyBoost : Nat → Int → Nat
  speciesName : String → String
  baseSpe : String → Nat
  calcAttack : Nat → Combatant → Combatant → Attack → FieldContext → Except String OracleOutcome

/-- Source `pokemon.rawStats[k]`: the un-boosted stat, derived by the Oracle from
species, level, nature and the per-stat EV/IV investment. -/
def rawStatOf (o : Oracle) (g : Nat) (k : StatKey) (c : Combatant) : Nat :=
  o.rawStat g k c.name c.level c.nature (c.evs.stat k) (c.ivs.stat k)

/-- Source `pokemon.stats.spe`: the speed stat with the speed boost stage
applied. -/
def effSpe (o : Oracle) (g : Nat) (c : Combatant) : Nat :=
  o.applyBoost (rawStatOf o g .spe c) c.boosts.spe

/-- One request of the batch, carrying every key any handler reads. -/
structure Request where
  type : Option String := none
  pokemon : Option RawPokemon := none
  maxSpeed : Bool := false
  pokemon1 : Option RawPokemon := none
  pokemon2 : Option RawPokemon := none
  attacker : Option RawPokemon := none
  defender : Option RawPokemon := none
  move : Option RawMove := none
  field : Option RawField := none
deriving DecidableEq

/-- Result payload of a stats request. -/
structure StatsResult where
  hp : Nat
  atk : Nat
  df : Nat
  spa : Nat
  spd : Nat
  spe : Nat
  boostedSpe : Nat
  species : String
  level : Nat
deriving DecidableEq

/-- Source `getStats(request)`: build the combatant (maximum-speed mode when
`request.maxSpeed` is set), then report the raw stats plus the
boost-adjusted speed. -/
def getStats (o : Oracle) (g : Nat) (r : Request) : Except String StatsResult :=
  match (if r.maxSpeed then buildMaxSpeedPokemon r.pokemon else buildPokemon r.pokemon) with
  | .error e => .error e
  | .ok c =>
    .ok { hp := rawStatOf o g .hp c
          atk := rawStatOf o g .atk c
          df := rawStatOf o g .df c
          spa := rawStatOf o g .spa c
          spd := rawStatOf o g .spd c
          spe := rawStatOf o g .spe c
          boostedSpe := o.applyBoost (rawStatOf o g .spe c) c.boosts.spe
          species := o.speciesName c.name
          level := c.level }

/-- One side of a speed-comparison result. -/
structure SpeedSide where
  name : String
  baseSpe : Nat
  rawSpe : Nat
  effectiveSpe : Nat
  boosts : Int
deriving DecidableEq

/-- Result payload of a speed request. -/
structure SpeedResult where
  pokemon1 : SpeedSide
  pokemon2 : SpeedSide
  verdict : String
deriving DecidableEq

/-- One side of `compareSpeed`: reading `.actualStats` on an absent side
raises a TypeError; a side marked `actualStats` is built in
actual-investment mode with `evs: data.evs || \x7bspe: 252\x7d` and
`ivs: data.ivs || \x7bspe: 31\x7d`; any other side is built in
maximum-speed-investment mode. -/
def buildSide (d : Option RawPokemon) : Except String Combatant :=
  match d with
  | none => .error "Cannot read properties of undefined (reading actualStats)"
  | some p =>
    if p.actualStats then
      buildPokemon (some { p with
        evs := some (p.evs.getD { spe := some 252 })
        ivs := some (p.ivs.getD { spe := some 31 }) })
    else
      buildMaxSpeedPokemon (some p)

/-- The speed boost stage reported per side: `pokemonN.boosts?.spe || 0`
read from the raw request data. -/
def reqBoost (d : Option RawPokemon) : Int :=
  ((d.bind (fun p => p.boosts)).bind (fun b => b.spe)).getD 0

/-- Source `compareSpeed(request)`: build both sides, compare their
boost-adjusted speeds, return the two audit summaries and the verdict. -/
def compareSpeed (o : Oracle) (g : Nat) (r : Request) : Except String SpeedResult :=
  match buildSide r.pokemon1 with
  | .error e => .error e
  | .ok c1 =>
    match buildSide r.pokemon2 with
    | .error e => .error e
    | .ok c2 =>
      let spe1 := effSpe o g c1
      let spe2 := effSpe o g c2
      let verdict :=
        if spe1 > spe2 then "POKEMON1_FASTER"
        else if spe2 > spe1 then "POKEMON2_FASTER"
        else "SPEED_TIE"
      .ok { pokemon1 := ⟨o.speciesName c1.name, o.baseSpe c1.name, rawStatOf o g .spe c1, spe1, reqBoost r.pokemon1⟩
            pokemon2 := ⟨o.speciesName c2.name, o.baseSpe c2.name, rawStatOf o g .spe c2, spe2, reqBoost r.pokemon2⟩
            verdict := verdict }

/-- Smallest damage roll (`0` for an empty distribution). -/
def rollMin (l : List Nat) : Nat :=
  match l with
  | [] => 0
  | h :: t => t.foldl Nat.min h

/-- Largest damage roll (`0` for an empty distribution). -/
def rollMax (l : List Nat) : Nat :=
  match l with
  | [] => 0
  | h :: t => t.foldl Nat.max h

/-- Modelled from the spec: `result.range()` of the Oracle, the
`[min, max]` pair derived from the damage roll distribution. -/
def rangeOf (l : List Nat) : Nat × Nat :=
  (rollMin l, rollMax l)

/-- Speed summary attached to each damage result
(`\x7bspe, boostedSpe\x7d`). -/
structure SpeStats where
  spe : Nat
  boostedSpe : Nat
deriving DecidableEq

/-- Result payload of a damage request. -/
structure DamageResult where
  damage : List Nat
  range : Nat × Nat
  descText : String
  fullDescText : String
  ko : String
  attackerStats : SpeStats
  defenderStats : SpeStats
deriving DecidableEq

/-- Source `calcOne(request)`: build both combatants, the move and the field,
invoke the Oracle, and augment its result with the range pair and both
speed of both sides, raw and boosted. -/
def calcOne (o : Oracle) (g : Nat) (r : Request) : Except String DamageResult :=
  match buildPokemon r.attacker with
  | .error e => .error e
  | .ok attacker =>
    match buildPokemon r.defender with
    | .error e => .error e
    | .ok defender =>
      match buildMove r.move with
      | .error e => .error e
      | .ok move =>
        let field := buildField r.field
        match o.calcAttack g attacker defender move field with
        | .error e => .error e
        | .ok result =>
          .ok { damage := result.damage
                range := rangeOf result.damage
                descText := result.descText
                fullDescText := result.fullDescText
                ko := result.ko
                attackerStats := ⟨rawStatOf o g .spe attacker, effSpe o g attacker⟩
                defenderStats := ⟨rawStatOf o g .spe defender, effSpe o g defender⟩ }

/-- The type-specific payload of a successful result. -/
inductive ResPayload where
  | stats (s : StatsResult)
  | speed (s : SpeedResult)
  | damage (d : DamageResult)
deriving DecidableEq

/-- One element of the output `results` list:
`\x7bok:true, result\x7d` or `\x7bok:false, error\x7d`. -/
inductive ResultEntry where
  | ok (r : ResPayload)
  | err (e : String)
deriving DecidableEq

/-- The `ok` flag of a result entry. -/
def ResultEntry.isOk : ResultEntry → Bool
  | .ok _ => true
  | .err _ => false

/-- The dispatch of one request plus the per-request try/catch: route by
the `type` tag (absent or unknown tag means damage) and convert a thrown
error into an `ok:false` entry. -/
def handleRequest (o : Oracle) (g : Nat) (r : Request) : ResultEntry :=
  if r.type = some "stats" then
    match getStats o g r with
    | .ok v => .ok (.stats v)
    | .error e => .err e
  else if r.type = some "speed" then
    match compareSpeed o g r with
    | .ok v => .ok (.speed v)
    | .error e => .err e
  else
    match calcOne o g r with
    | .ok v => .ok (.damage v)
    | .error e => .err e

/-- The top-level payload read from stdin. -/
structure Payload where
  gen : Option Nat := none
  requests : Option (List Request) := none
deriving DecidableEq

/-- The payload written to stdout. -/
structure Output where
  results : List ResultEntry
deriving DecidableEq

/-- Source `payload.requests || []`. -/
def requestsOf (p : Payload) : List Request :=
  p.requests.getD []

/-- Source `payload.gen || 9`, resolved once per invocation. -/
def genOf (p : Payload) : Nat :=
  jsOrNat p.gen 9

/-- The dispatch loop: `for (const request of requests)` pushing one
entry onto the accumulated results per request. -/
def dispatchLoop (o : Oracle) (g : Nat) : List Request → List ResultEntry → List ResultEntry
  | [], acc => acc
  | r :: rs, acc => dispatchLoop o g rs (acc ++ [handleRequest o g r])

/-- One whole engine invocation: resolve `gen`, run the dispatch loop
over the request list, emit the results payload. -/
def run (o : Oracle) (p : Payload) : Output :=
  { results := dispatchLoop o (genOf p) (requestsOf p) [] }

/-- Modelled from the spec: nature multiplier of the stat formula (10%
up on the favoured stat, 10% down on the disfavoured one); only the
speed-positive natures named by the engine matter here. -/
def natureMul (nature : Option String) (k : StatKey) (n : Nat) : Nat :=
  match nature with
  | some "Jolly" =>
    match k with
    | .spe => n * 110 / 100
    | .atk => n * 90 / 100
    | _ => n
  | some "Timid" =>
    match k with
    | .spe => n * 110 / 100
    | .spa => n * 90 / 100
    | _ => n
  | _ => n

/-- Modelled from the spec: the level/IV/EV/nature stat formula of the
Mechanics Oracle (HP uses the HP variant, other stats the nature-scaled
variant). -/
def gameStat (k : StatKey) (base level ev iv : Nat) (nature : Option String) : Nat :=
  let core := (2 * base + iv + ev / 4) * level / 100
  match k with
  | .hp => core + level + 10
  | _ => natureMul nature k (core + 5)

/-- Base stats of the species used in concrete test inputs (Oracle data;
any species not listed gets a flat 100 line). -/
def baseStatOf (name : String) (k : StatKey) : Nat :=
  if name = "Garchomp" then
    match k with
    | .hp => 108 | .atk => 130 | .df => 95 | .spa => 80 | .spd => 85 | .spe => 102
  else if name = "Ninetales-Alola" then
    match k with
    | .hp => 73 | .atk => 67 | .df => 75 | .spa => 81 | .spd => 100 | .spe => 109
  else 100

/-- Modelled from the spec: boost-stage multiplier — stage `b ≥ 0`
scales by `(2+b)/2`, stage `b < 0` by `2/(2-b)`, floored. -/
def stageBoost (n : Nat) (b : Int) : Nat :=
  if 0 ≤ b then n * (2 + b.toNat) / 2 else n * 2 / (2 + (-b).toNat)

/-- A concrete Mechanics Oracle instance used to evaluate theorems on
concrete inputs: the spec-modelled stat formula, boost multipliers, and
a fixed two-roll damage distribution. -/
def specOracle : Oracle :=
  { rawStat := fun _ k name level nature ev iv => gameStat k (baseStatOf name k) level ev iv nature
    applyBoost := stageBoost
    speciesName := fun n => n
    baseSpe := fun n => baseStatOf n .spe
    calcAttack := fun _ _ _ _ _ => .ok ⟨[85, 87, 90, 100], "guaranteed 2HKO", "d", "fd"⟩ }

/-- Unrolling the dispatch loop: the accumulated results are the already
pushed entries followed by one entry per remaining request, in order. -/
theorem dispatchLoop_eq_map (o : Oracle) (g : Nat) :
    ∀ (rs : List Request) (acc : List ResultEntry),
      dispatchLoop o g rs acc = acc ++ rs.map (handleRequest o g)
  | [], acc => by simp [dispatchLoop]
  | r :: rs, acc => by
    rw [dispatchLoop, dispatchLoop_eq_map o g rs]
    simp

/-- The whole run in closed form: one entry per request, each the
dispatch of that request alone. -/
theorem run_eq_map (o : Oracle) (p : Payload) :
    run o p = { results := (requestsOf p).map (handleRequest o (genOf p)) } := by
  rw [run, dispatchLoop_eq_map]
  simp

/-- A list whose `i`-th entry satisfies `q` while every other entry
refutes it has exactly one `q`-entry. -/
theorem countP_eq_one_of_unique {β : Type} (q : β → Bool) :
    ∀ (l : List β) (i : Nat) (hi : i < l.length),
      q l[i] = true →
      (∀ j (hj : j < l.length), j ≠ i → q l[j] = false) →
      l.countP q = 1
  | [], i, hi, _, _ => absurd hi (by simp)
  | a :: t, 0, _, hq, hrest => by
    have ht : t.countP q = 0 := List.countP_eq_zero.mpr (by
      intro x hx
      obtain ⟨j, hj, rfl⟩ := List.getElem_of_mem hx
      have := hrest (j + 1) (by simpa using Nat.succ_lt_succ hj) (by simp)
      simpa using this)
    have ha : q a = true := by simpa using hq
    simp [List.countP_cons, ht, ha]
  | a :: t, i + 1, hi, hq, hrest => by
    have ha : q a = false := by
      have := hrest 0 (by simp) (by simp)
      simpa using this
    have ih := countP_eq_one_of_unique q t i (by simpa using Nat.lt_of_succ_lt_succ hi)
      (by simpa using hq)
      (fun j hj hne => by
        have := hrest (j + 1) (by simpa using Nat.succ_lt_succ hj) (by simpa using hne)
        simpa using this)
    simp [List.countP_cons, ha, ih]

/-- C1: for every payload the batch dispatcher emits exactly one result
per request, and the `i`-th result is the outcome of dispatching the
`i`-th request alone — no request is dropped, reordered or merged. -/
theorem c1_order_preservation (o : Oracle) (p : Payload) :
    (run o p).results.length = (requestsOf p).length ∧
    ∀ i : Nat, (run o p).results[i]? = ((requestsOf p)[i]?).map (handleRequest o (genOf p)) := by
  rw [run_eq_map]
  exact ⟨by simp, fun i => by simp⟩

/-- C9: the engine is deterministic — a run is a pure pointwise function
of the payload and the Oracle, so two invocations of `run` on the same
payload with the same Oracle produce identical outputs, and no state
carries between requests or between invocations. -/
theorem c9_idempotent_runs (o : Oracle) (p : Payload) :
    run o p = { results := (requestsOf p).map (handleRequest o (genOf p)) } :=
  run_eq_map o p

/-- C2: fault isolation — when dispatching request `i` fails, the `i`-th
result is exactly that `ok:false` entry, every other request is still
dispatched in isolation and reported at its own position, and (when all
the others succeed) the batch holds exactly one `ok:false` entry. -/
theorem c2_fault_isolation (o : Oracle) (p : Payload) (i : Nat)
    (hi : i < (requestsOf p).length) (e : String)
    (hfail : handleRequest o (genOf p) (requestsOf p)[i] = .err e)
    (hok : ∀ j (hj : j < (requestsOf p).length), j ≠ i →
      (handleRequest o (genOf p) (requestsOf p)[j]).isOk = true) :
    (run o p).results[i]? = some (.err e) ∧
    (∀ j (hj : j < (requestsOf p).length), j ≠ i →
      (run o p).results[j]? = some (handleRequest o (genOf p) (requestsOf p)[j]) ∧
      (run o p).results[j]?.map ResultEntry.isOk = some true) ∧
    (run o p).results.countP (fun x => !x.isOk) = 1 := by
  rw [run_eq_map]
  refine ⟨?_, ?_, ?_⟩
  · simp [List.getElem?_eq_getElem hi, hfail]
  · intro j hj hne
    constructor
    · simp [List.getElem?_eq_getElem hj]
    · simp [List.getElem?_eq_getElem hj, hok j hj hne]
  · rw [show (((requestsOf p).map (handleRequest o (genOf p)) : List ResultEntry).countP
        (fun x => !x.isOk)) = (requestsOf p).countP
          (fun r => !(handleRequest o (genOf p) r).isOk) from List.countP_map ..]
    exact countP_eq_one_of_unique _ (requestsOf p) i hi
      (by simp [hfail, ResultEntry.isOk])
      (fun j hj hne => by simp [hok j hj hne])

/-- The verdict string of `compareSpeed` as a function of the two
effective speeds: each of the three verdicts holds exactly in its
trichotomy case. -/
theorem verdictSpec (s1 s2 : Nat) :
    ((if s1 > s2 then "POKEMON1_FASTER"
      else if s2 > s1 then "POKEMON2_FASTER"
      else "SPEED_TIE") = "POKEMON1_FASTER" ↔ s1 > s2) ∧
    ((if s1 > s2 then "POKEMON1_FASTER"
      else if s2 > s1 then "POKEMON2_FASTER"
      else "SPEED_TIE") = "POKEMON2_FASTER" ↔ s2 > s1) ∧
    ((if s1 > s2 then "POKEMON1_FASTER"
      else if s2 > s1 then "POKEMON2_FASTER"
      else "SPEED_TIE") = "SPEED_TIE" ↔ s1 = s2) := by
  rcases Nat.lt_trichotomy s1 s2 with h | h | h
  · rw [if_neg (by omega), if_pos (by omega)]
    exact ⟨iff_of_false (by decide) (by omega), iff_of_true rfl (by omega),
      iff_of_false (by decide) (by omega)⟩
  · rw [if_neg (by omega), if_neg (by omega)]
    exact ⟨iff_of_false (by decide) (by omega), iff_of_false (by decide) (by omega),
      iff_of_true rfl (by omega)⟩
  · rw [if_pos (by omega)]
    exact ⟨iff_of_true rfl (by omega), iff_of_false (by decide) (by omega),
      iff_of_false (by decide) (by omega)⟩

/-- C3: the speed verdict is determined solely by comparing the two
boost-adjusted speeds — strictly greater on side 1 gives
`POKEMON1_FASTER`, strictly greater on side 2 gives `POKEMON2_FASTER`,
equality gives `SPEED_TIE` with no further tie-break; in particular two
sides built to combatants with identical species, level, nature, EVs,
IVs and speed boost stage always tie. -/
theorem c3_speed_verdict (o : Oracle) (g : Nat) (r : Request) (res : SpeedResult)
    (h : compareSpeed o g r = .ok res) :
    ((res.verdict = "POKEMON1_FASTER" ↔ res.pokemon1.effectiveSpe > res.pokemon2.effectiveSpe) ∧
     (res.verdict = "POKEMON2_FASTER" ↔ res.pokemon2.effectiveSpe > res.pokemon1.effectiveSpe) ∧
     (res.verdict = "SPEED_TIE" ↔ res.pokemon1.effectiveSpe = res.pokemon2.effectiveSpe)) ∧
    (∀ c1 c2, buildSide r.pokemon1 = .ok c1 → buildSide r.pokemon2 = .ok c2 →
      c1.name = c2.name → c1.level = c2.level → c1.nature = c2.nature →
      c1.evs = c2.evs → c1.ivs = c2.ivs → c1.boosts.spe = c2.boosts.spe →
      res.verdict = "SPEED_TIE") := by
  unfold compareSpeed at h
  cases h1 : buildSide r.pokemon1 with
  | error e => rw [h1] at h; exact absurd h (by simp)
  | ok c1 =>
    cases h2 : buildSide r.pokemon2 with
    | error e => rw [h1, h2] at h; exact absurd h (by simp)
    | ok c2 =>
      rw [h1, h2] at h
      injection h with h
      subst h
      refine ⟨verdictSpec (effSpe o g c1) (effSpe o g c2), ?_⟩
      intro d1 d2 hd1 hd2 hname hlevel hnature hevs hivs hboost
      injection hd1 with e1
      injection hd2 with e2
      subst e1
      subst e2
      have hspe : effSpe o g c1 = effSpe o g c2 := by
        unfold effSpe rawStatOf
        rw [hname, hlevel, hnature, hevs, hivs, hboost]
      exact (verdictSpec (effSpe o g c1) (effSpe o g c2)).2.2.mpr hspe

/-- The explicit actual-stats request that reproduces the
maximum-speed-investment build of a raw description `p`: Jolly nature,
252 speed EVs with 0 elsewhere, all-31 IVs, the level of `p` when
supplied and nonzero (100 otherwise), and the boost stages of `p`. -/
def explicitMaxOf (p : RawPokemon) : RawPokemon :=
  { name := p.name
    actualStats := true
    nature := some "Jolly"
    evs := some maxSpeedEvs
    ivs := some maxSpeedIvs
    level := some (jsOrNat p.level 100)
    boosts := p.boosts }

/-- The concrete no-`actualStats` description refuting C4 as stated: its
level, 50, is preserved by the maximum-speed build. -/
def garchomp50 : RawPokemon := { name := some "Garchomp", level := some 50 }

/-- The explicit actual-stats request C4 claims is equivalent to
`garchomp50`: maximum-speed nature, EVs 252 speed / 0 elsewhere, all-31
IVs, level 100, same (absent) boost stage. -/
def garchompClaimExplicit : RawPokemon :=
  { name := some "Garchomp"
    actualStats := true
    nature := some "Jolly"
    evs := some maxSpeedEvs
    ivs := some maxSpeedIvs
    level := some 100 }

/-- C4 counterexample: a speed-request side with no `actualStats` flag
but a supplied level of 50 gets effective speed 169, while the explicit
actual-stats request prescribed by the claim (level 100) gets 333, so
the claimed equality of effective speeds fails and `compareSpeed` on
the pair returns `POKEMON2_FASTER` instead of the tie the claim would
force. -/
theorem c4_counterexample :
    garchomp50.actualStats = false ∧
    (buildSide (some garchomp50)).map (effSpe specOracle 9) = .ok 169 ∧
    (buildSide (some garchompClaimExplicit)).map (effSpe specOracle 9) = .ok 333 ∧
    (compareSpeed specOracle 9
        { type := some "speed"
          pokemon1 := some garchomp50
          pokemon2 := some garchompClaimExplicit }).map
      (fun res => (res.pokemon1.effectiveSpe, res.pokemon2.effectiveSpe, res.verdict)) =
      .ok (169, 333, "POKEMON2_FASTER") :=
  ⟨rfl, rfl, rfl, rfl⟩

/-- C4 amended: a speed-request side with no `actualStats` flag gets the
same effective speed as the explicit actual-stats request with
maximum-speed nature, EVs 252 speed / 0 elsewhere, all-31 IVs, the same
boost stage, and the level of the description itself when supplied and
nonzero (100 only when it is absent or zero). -/
theorem c4_amended_max_investment_default (o : Oracle) (g : Nat) (p : RawPokemon)
    (hp : p.actualStats = false) :
    (buildSide (some p)).map (effSpe o g) =
      (buildSide (some (explicitMaxOf p))).map (effSpe o g) := by
  cases hn : strFalsy p.name with
  | true =>
    simp [buildSide, explicitMaxOf, buildMaxSpeedPokemon, buildPokemon, hp, hn]
  | false =>
    simp [buildSide, explicitMaxOf, buildMaxSpeedPokemon, buildPokemon, hp, hn,
      effSpe, rawStatOf, Except.map, mkCombatant, optionsOf, normEvs, normIvs,
      normBoosts, Spread.stat]

/-- C10: in `compareSpeed`, for a side marked `actualStats` the 252
speed-EV default (and the 31 speed-IV default) applies only when the
side supplies no `evs` (respectively `ivs`) object at all; any supplied
EV object — even one without a `spe` key — suppresses the default, and
the speed EV falls back to the engine default of 0 rather than 252. -/
theorem c10_ev_default_only_when_absent (p : RawPokemon) (c : Combatant)
    (hp : p.actualStats = true) (h : buildSide (some p) = .ok c) :
    c.evs.spe = (match p.evs with | none => 252 | some e => e.spe.getD 0) ∧
    c.ivs.spe = (match p.ivs with | none => 31 | some e => e.spe.getD 31) := by
  simp only [buildSide, hp, if_true] at h
  simp only [buildPokemon] at h
  cases hn : strFalsy p.name with
  | true =>
    rw [if_pos hn] at h
    exact absurd h (by simp)
  | false =>
    rw [if_neg (by simp [hn])] at h
    injection h with h
    subst h
    constructor
    · cases hevs : p.evs <;> simp [mkCombatant, optionsOf, normEvs, hevs]
    · cases hivs : p.ivs <;> simp [mkCombatant, optionsOf, normIvs, hivs]

/-- C5: the combatant builder fails exactly when its raw input is absent
or carries no (nonempty) `name`; the failure is atomic (an `error`
carries no combatant) and is always the single validation error; when
the name is present every other field is passed through to the Oracle
constructor, which applies the engine defaults, and never causes a
failure. -/
theorem c5_builder_validation (d : Option RawPokemon) :
    ((∃ c, buildPokemon d = .ok c) ↔ ∃ p, d = some p ∧ strFalsy p.name = false) ∧
    (∀ p, d = some p → strFalsy p.name = false →
      buildPokemon d = .ok (mkCombatant (p.name.getD "") (optionsOf p))) ∧
    ((∃ c, buildPokemon d = .ok c) ∨ buildPokemon d = .error "Pokemon data missing name") := by
  cases d with
  | none =>
    refine ⟨?_, ?_, Or.inr rfl⟩
    · constructor
      · rintro ⟨c, hc⟩
        exact absurd hc (by simp [buildPokemon])
      · rintro ⟨p, hp, _⟩
        exact absurd hp (by simp)
    · intro p hp _
      exact absurd hp (by simp)
  | some p =>
    cases hn : strFalsy p.name with
    | true =>
      have hb : buildPokemon (some p) = .error "Pokemon data missing name" := by
        simp [buildPokemon, hn]
      refine ⟨?_, ?_, Or.inr hb⟩
      · constructor
        · rintro ⟨c, hc⟩
          rw [hb] at hc
          exact absurd hc (by simp)
        · rintro ⟨q, hq, hqn⟩
          injection hq with hq
          subst hq
          rw [hn] at hqn
          exact absurd hqn (by simp)
      · intro q hq hqn
        injection hq with hq
        subst hq
        rw [hn] at hqn
        exact absurd hqn (by simp)
    | false =>
      have hb : buildPokemon (some p) = .ok (mkCombatant (p.name.getD "") (optionsOf p)) := by
        simp [buildPokemon, hn]
      refine ⟨iff_of_true ⟨_, hb⟩ ⟨p, rfl, hn⟩, ?_, Or.inl ⟨_, hb⟩⟩
      intro q hq _
      injection hq with hq
      subst hq
      exact hb

/-- Key lookup in a spread-merge: the override object wins on its own
keys and the base object answers everything else. -/
theorem spreadMerge_lookup (k : String) :
    ∀ a b : SideConds, condLookup k (spreadMerge a b) = (condLookup k b).or (condLookup k a)
  | [], b => by
    simp [spreadMerge, condLookup, Option.or]
    cases condLookup k b <;> rfl
  | q :: t, b => by
    have ih := spreadMerge_lookup k t b
    by_cases hP : (condLookup q.1 b).isNone = true
    · by_cases hk : q.1 = k
      · have hb : condLookup k b = none := by
          rw [← hk]
          exact Option.eq_none_of_isNone hP
        simp [spreadMerge, List.filter_cons, hP, condLookup, hk, hb, Option.or]
      · simp only [spreadMerge, List.filter_cons, hP, if_true] at ih ⊢
        simp [condLookup, hk, ih]
    · by_cases hk : q.1 = k
      · obtain ⟨y, hy⟩ : ∃ y, condLookup q.1 b = some y := by
          cases hcb : condLookup q.1 b with
          | none => rw [hcb] at hP; exact (hP rfl).elim
          | some y => exact ⟨y, rfl⟩
        have hb : condLookup k b = some y := by rw [← hk]; exact hy
        simp only [spreadMerge, List.filter_cons, hP, if_false] at ih ⊢
        simp [condLookup, hk, hb, ih, Option.or]
      · simp only [spreadMerge, List.filter_cons, hP, if_false] at ih ⊢
        simp [condLookup, hk, ih]

/-- C6: the field builder is total (it returns a `FieldContext` for every
input by its type, never an error); absent input yields the base context
(Singles, empty sides); supplied data is merged over the base, each
supplied side object being spread-merged onto the corresponding base
side object, and the two sides are handled independently. -/
theorem c6_field_context_merge :
    buildField none = baseField ∧
    (∀ f : RawField,
      buildField (some f) =
        { gameType := f.gameType.getD baseField.gameType
          weather := f.weather
          terrain := f.terrain
          attackerSide := spreadMerge baseField.attackerSide (f.attackerSide.getD [])
          defenderSide := spreadMerge baseField.defenderSide (f.defenderSide.getD []) }) ∧
    (∀ (a b : SideConds) (k : String),
      condLookup k (spreadMerge a b) = (condLookup k b).or (condLookup k a)) ∧
    (∀ (f : RawField) (s : Option SideConds),
      (buildField (some { f with defenderSide := s })).attackerSide =
        (buildField (some f)).attackerSide) ∧
    (∀ (f : RawField) (s : Option SideConds),
      (buildField (some { f with attackerSide := s })).defenderSide =
        (buildField (some f)).defenderSide) :=
  ⟨rfl, fun _ => rfl, fun a b k => spreadMerge_lookup k a b, fun _ _ => rfl, fun _ _ => rfl⟩

/-- Rebuilding a combatant after replacing only the boost stages of the
raw data changes only the normalized boost spread, in both construction
modes. -/
theorem build_set_boosts (mx : Bool) (p : RawPokemon) (b : Option PartialBoosts) (c : Combatant)
    (h : (if mx then buildMaxSpeedPokemon (some p) else buildPokemon (some p)) = .ok c) :
    (if mx then buildMaxSpeedPokemon (some { p with boosts := b })
     else buildPokemon (some { p with boosts := b })) = .ok { c with boosts := normBoosts b } := by
  cases mx with
  | true =>
    rw [if_pos rfl] at h ⊢
    cases hn : strFalsy p.name with
    | true =>
      rw [show buildMaxSpeedPokemon (some p) = .error "Pokemon data missing name" by
        simp [buildMaxSpeedPokemon, hn]] at h
      exact absurd h (by simp)
    | false =>
      rw [show buildMaxSpeedPokemon (some p) =
        .ok (mkCombatant (p.name.getD "")
          { level := some (jsOrNat p.level 100)
            ability := p.ability
            item := p.item
            nature := some "Jolly"
            evs := some maxSpeedEvs
            ivs := some maxSpeedIvs
            boosts := p.boosts
            status := p.status }) by simp [buildMaxSpeedPokemon, hn]] at h
      injection h with h
      subst h
      simp [buildMaxSpeedPokemon, hn, mkCombatant]
  | false =>
    rw [if_neg (by simp)] at h ⊢
    cases hn : strFalsy p.name with
    | true =>
      rw [show buildPokemon (some p) = .error "Pokemon data missing name" by
        simp [buildPokemon, hn]] at h
      exact absurd h (by simp)
    | false =>
      rw [show buildPokemon (some p) = .ok (mkCombatant (p.name.getD "") (optionsOf p)) by
        simp [buildPokemon, hn]] at h
      injection h with h
      subst h
      simp [buildPokemon, hn, mkCombatant, optionsOf]

/-- C7: a successful stats query reports every stat as the raw
(un-boosted) Oracle stat of the built combatant and `boostedSpe` as the
boost-adjusted speed; replacing the boost stages of the request changes
none of the raw fields (nor species/level), only `boostedSpe`, which
stays the boost adjustment of the raw speed. -/
theorem c7_stats_query (o : Oracle) (g : Nat) (r : Request) (s : StatsResult)
    (h : getStats o g r = .ok s) :
    (∃ c, (if r.maxSpeed then buildMaxSpeedPokemon r.pokemon else buildPokemon r.pokemon) = .ok c ∧
      s.hp = rawStatOf o g .hp c ∧ s.atk = rawStatOf o g .atk c ∧ s.df = rawStatOf o g .df c ∧
      s.spa = rawStatOf o g .spa c ∧ s.spd = rawStatOf o g .spd c ∧ s.spe = rawStatOf o g .spe c ∧
      s.boostedSpe = o.applyBoost (rawStatOf o g .spe c) c.boosts.spe) ∧
    (∀ (p : RawPokemon) (b : Option PartialBoosts) (s2 : StatsResult),
      r.pokemon = some p →
      getStats o g { r with pokemon := some { p with boosts := b } } = .ok s2 →
      s2.hp = s.hp ∧ s2.atk = s.atk ∧ s2.df = s.df ∧ s2.spa = s.spa ∧ s2.spd = s.spd ∧
      s2.spe = s.spe ∧ s2.species = s.species ∧ s2.level = s.level ∧
      s2.boostedSpe = o.applyBoost s.spe (normBoosts b).spe) := by
  unfold getStats at h
  cases hb : (if r.maxSpeed then buildMaxSpeedPokemon r.pokemon else buildPokemon r.pokemon) with
  | error e => rw [hb] at h; exact absurd h (by simp)
  | ok c =>
    rw [hb] at h
    injection h with h
    subst h
    refine ⟨⟨c, rfl, rfl, rfl, rfl, rfl, rfl, rfl, rfl⟩, ?_⟩
    intro p b s2 hp h2
    rw [hp] at hb
    have hb2 := build_set_boosts r.maxSpeed p b c hb
    unfold getStats at h2
    rw [show ({ r with pokemon := some { p with boosts := b } } : Request).maxSpeed
        = r.maxSpeed from rfl,
      show ({ r with pokemon := some { p with boosts := b } } : Request).pokemon
        = some { p with boosts := b } from rfl] at h2
    rw [hb2] at h2
    injection h2 with h2
    subst h2
    exact ⟨rfl, rfl, rfl, rfl, rfl, rfl, rfl, rfl, rfl⟩

/-- Folding `max` is monotone in its starting value. -/
theorem foldl_max_mono : ∀ (t : List Nat) (x y : Nat), x ≤ y →
    t.foldl Nat.max x ≤ t.foldl Nat.max y
  | [], _, _, h => h
  | z :: t, x, y, h => by
    simp only [List.foldl_cons]
    exact foldl_max_mono t _ _ (max_le_max h (le_refl z))

/-- Folding `min` never exceeds folding `max` from the same start. -/
theorem foldl_min_le_foldl_max : ∀ (t : List Nat) (a : Nat),
    t.foldl Nat.min a ≤ t.foldl Nat.max a
  | [], a => Nat.le_refl a
  | x :: t, a => by
    simp only [List.foldl_cons]
    calc t.foldl Nat.min (Nat.min a x)
        ≤ t.foldl Nat.max (Nat.min a x) := foldl_min_le_foldl_max t _
      _ ≤ t.foldl Nat.max (Nat.max a x) := by
          exact foldl_max_mono t _ _ (Nat.le_trans (Nat.min_le_left a x) (Nat.le_max_left a x))

/-- The derived damage range is an ascending pair. -/
theorem rollMin_le_rollMax (l : List Nat) : rollMin l ≤ rollMax l := by
  cases l with
  | nil => exact Nat.le_refl 0
  | cons h t => exact foldl_min_le_foldl_max t h

/-- C8: every successful damage-dispatched request (any request whose
type tag is neither `stats` nor `speed`) yields a damage result whose
`range` is the ascending `[min, max]` pair derived from the Oracle
damage roll distribution, augmented with the raw and boost-adjusted
speed of both built combatants. -/
theorem c8_damage_range_and_speeds (o : Oracle) (g : Nat) (r : Request) (v : ResPayload)
    (hs : r.type ≠ some "stats") (hsp : r.type ≠ some "speed")
    (h : handleRequest o g r = .ok v) :
    ∃ res, v = .damage res ∧ calcOne o g r = .ok res ∧
      res.range = rangeOf res.damage ∧ res.range.1 ≤ res.range.2 ∧
      ∃ a d, buildPokemon r.attacker = .ok a ∧ buildPokemon r.defender = .ok d ∧
        res.attackerStats = ⟨rawStatOf o g .spe a, effSpe o g a⟩ ∧
        res.defenderStats = ⟨rawStatOf o g .spe d, effSpe o g d⟩ := by
  unfold handleRequest at h
  rw [if_neg hs, if_neg hsp] at h
  cases hc : calcOne o g r with
  | error e => rw [hc] at h; exact absurd h (by simp)
  | ok res =>
    rw [hc] at h
    have h2 : ResultEntry.ok (.damage res) = .ok v := h
    injection h2 with h2
    subst h2
    cases ha : buildPokemon r.attacker with
    | error e =>
      have hbad : calcOne o g r = .error e := by simp [calcOne, ha]
      rw [hc] at hbad
      exact absurd hbad (by simp)
    | ok a =>
      cases hd : buildPokemon r.defender with
      | error e =>
        have hbad : calcOne o g r = .error e := by simp [calcOne, ha, hd]
        rw [hc] at hbad
        exact absurd hbad (by simp)
      | ok d =>
        cases hm : buildMove r.move with
        | error e =>
          have hbad : calcOne o g r = .error e := by simp [calcOne, ha, hd, hm]
          rw [hc] at hbad
          exact absurd hbad (by simp)
        | ok mv =>
          cases ho : o.calcAttack g a d mv (buildField r.field) with
          | error e =>
            have hbad : calcOne o g r = .error e := by simp [calcOne, ha, hd, hm, ho]
            rw [hc] at hbad
            exact absurd hbad (by simp)
          | ok result =>
            have hval : calcOne o g r = .ok
                { damage := result.damage
                  range := rangeOf result.damage
                  descText := result.descText
                  fullDescText := result.fullDescText
                  ko := result.ko
                  attackerStats := ⟨rawStatOf o g .spe a, effSpe o g a⟩
                  defenderStats := ⟨rawStatOf o g .spe d, effSpe o g d⟩ } := by
              simp [calcOne, ha, hd, hm, ho]
            rw [hc] at hval
            injection hval with hval
            subst hval
            exact ⟨_, rfl, rfl, rfl, rollMin_le_rollMax _, a, d, rfl, rfl, rfl, rfl⟩

/-- A minimal valid combatant description. -/
def garchompBare : RawPokemon := { name := some "Garchomp" }

/-- A valid combatant description carrying a +2 speed boost. -/
def ninetalesBare : RawPokemon := { name := some "Ninetales-Alola" }

/-- A valid damage request (untagged, so dispatched to `calcOne`). -/
def reqDmg : Request :=
  { attacker := some garchompBare
    defender := some ninetalesBare
    move := some { name := some "Earthquake" }
    field := none }

/-- A stats request whose combatant data has no name. -/
def reqStatsBad : Request :=
  { type := some "stats", pokemon := some {} }

/-- A valid speed request with two identical sides. -/
def reqTie : Request :=
  { type := some "speed", pokemon1 := some garchompBare, pokemon2 := some garchompBare }

/-- A three-request batch whose middle request alone fails. -/
def payload2 : Payload :=
  { requests := some [reqDmg, reqStatsBad, reqTie] }

/-- C2 witness: on the concrete three-request batch whose second request
lacks a name, the second result is the validation error and the batch
holds exactly one failing entry. -/
theorem c2_fault_isolation_witness :
    (run specOracle payload2).results[1]? = some (.err "Pokemon data missing name") ∧
    (run specOracle payload2).results.countP (fun x => !x.isOk) = 1 := by
  have h := c2_fault_isolation specOracle payload2 1 (by decide)
    "Pokemon data missing name" rfl (by decide)
  exact ⟨h.1, h.2.2⟩

/-- C3 witness: the concrete speed request with two identical sides
returns the `SPEED_TIE` verdict. -/
theorem c3_speed_verdict_witness :
    (compareSpeed specOracle 9 reqTie).map SpeedResult.verdict = .ok "SPEED_TIE" := by
  obtain ⟨res, h⟩ : ∃ res, compareSpeed specOracle 9 reqTie = .ok res := ⟨_, rfl⟩
  have hmain := c3_speed_verdict specOracle 9 reqTie res h
  obtain ⟨c1, h1⟩ : ∃ c, buildSide reqTie.pokemon1 = .ok c := ⟨_, rfl⟩
  have h2 : buildSide reqTie.pokemon2 = .ok c1 := h1
  have hverdict := hmain.2 c1 c1 h1 h2 rfl rfl rfl rfl rfl rfl
  rw [h]
  simp [Except.map, hverdict]

/-- C4 witness (amended form): for the level-50 no-`actualStats`
description, the maximum-speed build matches the explicit level-50
actual-stats request. -/
theorem c4_amended_witness :
    garchomp50.actualStats = false ∧
    (buildSide (some garchomp50)).map (effSpe specOracle 9) =
      (buildSide (some (explicitMaxOf garchomp50))).map (effSpe specOracle 9) :=
  ⟨rfl, c4_amended_max_investment_default specOracle 9 garchomp50 rfl⟩

/-- C5 witness: a concrete named description builds successfully into
the pass-through combatant. -/
theorem c5_builder_validation_witness :
    strFalsy garchompBare.name = false ∧
    buildPokemon (some garchompBare) =
      .ok (mkCombatant (garchompBare.name.getD "") (optionsOf garchompBare)) :=
  ⟨rfl, (c5_builder_validation (some garchompBare)).2.1 garchompBare rfl rfl⟩

/-- The plain stats request used by the C7 witness. -/
def rStatsPlain : Request := { type := some "stats", pokemon := some ninetalesBare }

/-- C7 witness: adding a +2 speed boost to the concrete stats request
leaves the raw speed unchanged and turns `boostedSpe` into the
boost-adjusted raw speed. -/
theorem c7_stats_query_witness :
    (getStats specOracle 9 { rStatsPlain with
        pokemon := some { ninetalesBare with boosts := some { spe := some 2 } } }).map
      StatsResult.spe =
      (getStats specOracle 9 rStatsPlain).map StatsResult.spe ∧
    (getStats specOracle 9 { rStatsPlain with
        pokemon := some { ninetalesBare with boosts := some { spe := some 2 } } }).map
      StatsResult.boostedSpe =
      (getStats specOracle 9 rStatsPlain).map (fun s => specOracle.applyBoost s.spe 2) := by
  obtain ⟨s, hs⟩ : ∃ s, getStats specOracle 9 rStatsPlain = .ok s := ⟨_, rfl⟩
  obtain ⟨s2, hs2⟩ : ∃ s2, getStats specOracle 9 { rStatsPlain with
      pokemon := some { ninetalesBare with boosts := some { spe := some 2 } } } = .ok s2 :=
    ⟨_, rfl⟩
  have h := (c7_stats_query specOracle 9 rStatsPlain s hs).2 ninetalesBare
    (some { spe := some 2 }) s2 rfl hs2
  constructor
  · rw [hs, hs2]
    simp [Except.map, h.2.2.2.2.2.1]
  · rw [hs, hs2]
    simp only [Except.map]
    rw [h.2.2.2.2.2.2.2.2]
    rfl

/-- C8 witness: the concrete damage request yields a result whose range
is the pair derived from the damage rolls and is ascending. -/
theorem c8_damage_witness :
    reqDmg.type ≠ some "stats" ∧ reqDmg.type ≠ some "speed" ∧
    (calcOne specOracle 9 reqDmg).map
      (fun res => (decide (res.range = rangeOf res.damage), decide (res.range.1 ≤ res.range.2))) =
      .ok (true, true) := by
  refine ⟨by decide, by decide, ?_⟩
  obtain ⟨v, hv⟩ : ∃ v, handleRequest specOracle 9 reqDmg = .ok v := ⟨_, rfl⟩
  obtain ⟨res, -, hcalc, hrange, hle, -⟩ :=
    c8_damage_range_and_speeds specOracle 9 reqDmg v (by decide) (by decide) hv
  have hle2 : (rangeOf res.damage).1 ≤ (rangeOf res.damage).2 := hrange ▸ hle
  rw [hcalc]
  simp [Except.map, hrange, hle2]

/-- An actual-stats side supplying an EV object with no `spe` key. -/
def pEmptyEvs : RawPokemon := { name := some "Garchomp", actualStats := true, evs := some {} }

/-- C10 witness: the concrete actual-stats side with an empty EV object
gets speed EV 0 (not 252) and speed IV 31. -/
theorem c10_ev_default_witness :
    (buildSide (some pEmptyEvs)).map (fun c => (c.evs.spe, c.ivs.spe)) = .ok (0, 31) := by
  obtain ⟨c, hc⟩ : ∃ c, buildSide (some pEmptyEvs) = .ok c := ⟨_, rfl⟩
  have h := c10_ev_default_only_when_absent pEmptyEvs c rfl hc
  have h1 : c.evs.spe = 0 := by simpa [pEmptyEvs] using h.1
  have h2 : c.ivs.spe = 31 := by simpa [pEmptyEvs] using h.2
  rw [hc]
  simp [Except.map, h1, h2]
